import Mathlib

/-!
Verification development for the HomieHub roommate/room matching system.

The repository's frontend (TypeScript, under `src/frontend`) is embedded
shallowly: zod schemas become boolean acceptance predicates, React handlers
become pure functions on explicit state, and the `fetch` wrapper becomes a
function from a session store and an HTTP response to a new store and an
`Except` outcome.  The matching engine, drift detector and retraining
orchestrator are backend services that are described by the repository's
design documents but whose code is not in the repository; those components
are modelled from the specification, and each such definition is marked
`Modelled from the spec:` in its doc comment.

Dates and instants are modelled as integer numbers of days since an epoch
(sub-day precision plays no role in any claim); a calendar-year increment is
modelled as 365 days.  JavaScript string truthiness (`""` falsy) is modelled
by comparison with the empty string, and numeric truthiness (`0` falsy) by
comparison with `0`.
-/

/-! ## Generic stable sorting

JavaScript's `Array.prototype.sort` is stable (ECMAScript 2019).  Both the
client-side `applySort` and the modelled engine ordering are embedded with
the following stable insertion sort, which keeps the original relative order
of elements that compare as ties.
-/

/-- Insert `x` into `l`, placing it before the first element `y` with
`le x y`; elements equal under `le` keep their original relative order. -/
def insSorted (le : α → α → Bool) (x : α) : List α → List α
  | [] => [x]
  | y :: ys => if le x y then x :: y :: ys else y :: insSorted le x ys

/-- Stable sort by the boolean relation `le` (insertion sort). -/
def stableSortBy (le : α → α → Bool) (l : List α) : List α :=
  l.foldr (insSorted le) []

theorem insSorted_perm (le : α → α → Bool) (x : α) (l : List α) :
    (insSorted le x l).Perm (x :: l) := by
  induction l with
  | nil => simp [insSorted]
  | cons y ys ih =>
    simp only [insSorted]
    by_cases hxy : le x y = true
    · simp [hxy]
    · simp only [hxy, if_false]
      exact ((ih.cons y).trans (List.Perm.swap x y ys))

theorem stableSortBy_perm (le : α → α → Bool) (l : List α) :
    (stableSortBy le l).Perm l := by
  induction l with
  | nil => simp [stableSortBy]
  | cons x xs ih =>
    simpa [stableSortBy] using (insSorted_perm le x (stableSortBy le xs)).trans (ih.cons x)

theorem stableSortBy_length (le : α → α → Bool) (l : List α) :
    (stableSortBy le l).length = l.length :=
  (stableSortBy_perm le l).length_eq

theorem stableSortBy_mem (le : α → α → Bool) (l : List α) (a : α) :
    a ∈ stableSortBy le l ↔ a ∈ l :=
  (stableSortBy_perm le l).mem_iff

theorem insSorted_pairwise (le : α → α → Bool)
    (htot : ∀ a b, le a b = true ∨ le b a = true)
    (htrans : ∀ a b c, le a b = true → le b c = true → le a c = true)
    (x : α) (l : List α)
    (h : l.Pairwise (fun a b => le a b = true)) :
    (insSorted le x l).Pairwise (fun a b => le a b = true) := by
  induction l with
  | nil => simp [insSorted]
  | cons y ys ih =>
    rcases List.pairwise_cons.mp h with ⟨hy, hys⟩
    simp only [insSorted]
    by_cases hxy : le x y = true
    · simp only [hxy, if_true]
      refine List.pairwise_cons.mpr ⟨?_, h⟩
      intro b hb
      rcases List.mem_cons.mp hb with hb | hb
      · exact hb ▸ hxy
      · exact htrans x y b hxy (hy b hb)
    · simp only [hxy, if_false]
      refine List.pairwise_cons.mpr ⟨?_, ih hys⟩
      intro b hb
      rcases List.mem_cons.mp ((insSorted_perm le x ys).mem_iff.mp hb) with hb | hb
      · rcases htot x y with hc | hc
        · exact absurd hc hxy
        · exact hb ▸ hc
      · exact hy b hb

theorem stableSortBy_pairwise (le : α → α → Bool)
    (htot : ∀ a b, le a b = true ∨ le b a = true)
    (htrans : ∀ a b c, le a b = true → le b c = true → le a c = true)
    (l : List α) :
    (stableSortBy le l).Pairwise (fun a b => le a b = true) := by
  induction l with
  | nil => simp [stableSortBy]
  | cons x xs ih => exact insSorted_pairwise le htot htrans x (stableSortBy le xs) ih

theorem filter_insSorted (le : α → α → Bool) (p : α → Bool)
    (hp : ∀ a b, p a = true → p b = true → le a b = true)
    (x : α) (l : List α) :
    (insSorted le x l).filter p = if p x then x :: l.filter p else l.filter p := by
  induction l with
  | nil => by_cases hx : p x = true <;> simp [insSorted, hx]
  | cons y ys ih =>
    simp only [insSorted]
    by_cases hxy : le x y = true
    · by_cases hx : p x = true <;> simp [hxy, hx, List.filter]
    · simp only [hxy, if_false]
      by_cases hx : p x = true
      · have hy : p y = false := by
          by_contra hcon
          have : p y = true := by simpa using hcon
          exact hxy (hp x y hx this)
        simp [List.filter, hy, ih, hx]
      · have hx' : p x = false := by simpa using hx
        simp [List.filter, ih, hx']

theorem stableSortBy_filter (le : α → α → Bool) (p : α → Bool)
    (hp : ∀ a b, p a = true → p b = true → le a b = true)
    (l : List α) :
    (stableSortBy le l).filter p = l.filter p := by
  induction l with
  | nil => rfl
  | cons x xs ih =>
    show (insSorted le x (stableSortBy le xs)).filter p = _
    rw [filter_insSorted le p hp]
    by_cases hx : p x = true <;> simp [List.filter, hx, ih]

/-- Lexicographic order on character lists; used to embed "lexicographic
identifier order" on the string identifiers of candidates. -/
def lexLe : List Char → List Char → Bool
  | [], _ => true
  | _ :: _, [] => false
  | a :: as, b :: bs => if a < b then true else if b < a then false else lexLe as bs

theorem lexLe_total (s t : List Char) : lexLe s t = true ∨ lexLe t s = true := by
  induction s generalizing t with
  | nil => left; rfl
  | cons a as ih =>
    cases t with
    | nil => right; rfl
    | cons b bs =>
      rcases lt_trichotomy a b with h | h | h
      · left; simp [lexLe, h]
      · subst h
        rcases ih bs with hc | hc
        · left; simp [lexLe, lt_irrefl, hc]
        · right; simp [lexLe, lt_irrefl, hc]
      · right; simp [lexLe, h]

theorem lexLe_trans : ∀ s t u : List Char,
    lexLe s t = true → lexLe t u = true → lexLe s u = true
  | [], _, _, _, _ => rfl
  | _ :: _, [], _, h₁, _ => by simp [lexLe] at h₁
  | _ :: _, _ :: _, [], _, h₂ => by simp [lexLe] at h₂
  | a :: as, b :: bs, c :: cs, h₁, h₂ => by
    simp only [lexLe] at h₁ h₂ ⊢
    by_cases hab : a < b
    · by_cases hbc : b < c
      · simp [lt_trans hab hbc]
      · by_cases hcb : c < b
        · simp [hbc, hcb] at h₂
        · have hbc' : b = c := le_antisymm (not_lt.mp hcb) (not_lt.mp hbc)
          simp [hbc' ▸ hab]
    · by_cases hba : b < a
      · simp [hab, hba] at h₁
      · have hab' : a = b := le_antisymm (not_lt.mp hba) (not_lt.mp hab)
        subst hab'
        simp only [lt_irrefl, if_false] at h₁
        by_cases hac : a < c
        · simp [hac]
        · by_cases hca : c < a
          · simp [hac, hca] at h₂
          · have hac' : a = c := le_antisymm (not_lt.mp hca) (not_lt.mp hac)
            subst hac'
            simp only [lt_irrefl, if_false] at h₂ ⊢
            exact lexLe_trans as bs cs h₁ h₂

/-! ## Embedding of `src/frontend/lib/validation.ts` and `src/frontend/lib/types.ts`

zod schemas are embedded as boolean acceptance predicates over records whose
fields mirror the schema fields.  Each `z.enum([...])` becomes membership in
the corresponding vocabulary list below; `z.number().positive()` becomes
`0 < ·`; `z.number().int().positive()` becomes `isPosInt`.
-/

/-- Enumerated vocabulary of `postAdSchema.flatmate_gender` (validation.ts:38). -/
def postFlatmateGenderVocab : List String :=
  ["Male", "Female", "Non-binary", "Mixed", "Any"]

/-- Enumerated vocabulary of `postAdSchema.room_type` (validation.ts:39). -/
def postRoomTypeVocab : List String := ["Shared", "Private", "Studio"]

/-- Enumerated vocabulary of `postAdSchema.attached_bathroom` (validation.ts:42). -/
def postBathroomVocab : List String := ["Yes", "No"]

/-- Enumerated vocabulary of `lifestyle_food` in both `postAdSchema` and
`filterSchema` (validation.ts:43 and :71). -/
def foodVocab : List String :=
  ["Vegetarian", "Vegan", "Non-vegetarian", "Everything", "Halal", "Kosher"]

/-- Enumerated vocabulary of `lifestyle_alcohol` in both schemas
(validation.ts:44 and :72). -/
def alcoholVocab : List String := ["Never", "Rarely", "Occasionally", "Regularly"]

/-- Enumerated vocabulary of `lifestyle_smoke` in both schemas
(validation.ts:45 and :73). -/
def smokeVocab : List String := ["Yes", "No", "Occasionally", "Outside only"]

/-- Enumerated vocabulary of `filterSchema.gender_pref` (validation.ts:67). -/
def filterGenderVocab : List String :=
  ["Male", "Female", "Non-binary", "Mixed", "Any"]

/-- Enumerated vocabulary of `filterSchema.room_type_preference` (validation.ts:69). -/
def filterRoomTypeVocab : List String := ["Shared", "Private", "Studio", "Any"]

/-- Enumerated vocabulary of `filterSchema.attached_bathroom` (validation.ts:70). -/
def filterBathroomVocab : List String := ["Yes", "No", "Any"]

/-- Option list `FLATMATE_GENDER_OPTIONS` (types.ts:140), offered by the UI forms. -/
def FLATMATE_GENDER_OPTIONS : List String :=
  ["Male", "Female", "Non-binary", "Mixed", "Any"]

/-- Option list `ROOM_TYPE_OPTIONS` (types.ts:141). -/
def ROOM_TYPE_OPTIONS : List String := ["Shared", "Private", "Studio"]

/-- Option list `BATHROOM_OPTIONS` (types.ts:142). -/
def BATHROOM_OPTIONS : List String := ["Yes", "No", "Any"]

/-- Option list `LIFESTYLE_FOOD_OPTIONS` (types.ts:143). -/
def LIFESTYLE_FOOD_OPTIONS : List String := ["Vegetarian", "Vegan", "Everything"]

/-- Option list `LIFESTYLE_ALCOHOL_OPTIONS` (types.ts:144). -/
def LIFESTYLE_ALCOHOL_OPTIONS : List String :=
  ["Never", "Rarely", "Occasionally", "Regularly"]

/-- Option list `LIFESTYLE_SMOKE_OPTIONS` (types.ts:145). -/
def LIFESTYLE_SMOKE_OPTIONS : List String := ["Yes", "No", "Outside only"]

/-- `z.number().int().positive()`: a positive integral number. -/
def isPosInt (q : ℚ) : Bool := decide (0 < q) && decide (q.den = 1)

/-- Abstraction of zod's `z.string().email()` check: the embedding only
records that an accepted address contains an `@`; none of the claims depends
on the finer points of the e-mail regex. -/
def emailLike (s : String) : Bool := s.data.contains '@'

/-- Abstraction of zod's `z.string().url()` check: an accepted URL starts
with `http`; none of the claims depends on the finer points of URL syntax. -/
def urlLike (s : String) : Bool := s.data.take 4 == "http".data

/-- A room record as validated by `postAdSchema` (validation.ts:35-62).
`available_from` holds the day the date string parses to, or `none` if
`new Date(...)` yields an invalid date (`NaN` compares false against the
window bounds, so an unparseable date is rejected). -/
structure PostAdRecord where
  location : String
  address : String
  flatmate_gender : String
  room_type : String
  rent : ℚ
  lease_duration_months : ℚ
  attached_bathroom : String
  lifestyle_food : String
  lifestyle_alcohol : String
  lifestyle_smoke : String
  num_bedrooms : ℚ
  num_bathrooms : ℚ
  utilities_included : List String
  contact : String
  description : String
  amenities : List String
  available_from : Option ℤ
  photos : Option (List String)
  deriving DecidableEq

/-- The `available_from` refinement of `postAdSchema` (validation.ts:52-60):
the parsed date must lie between 30 days before the evaluation instant `now`
and one (365-day) year after it. -/
def availableFromOk (now : ℤ) (d : Option ℤ) : Bool :=
  match d with
  | none => false
  | some t => decide (now - 30 ≤ t) && decide (t ≤ now + 365)

/-- The categorical-field checks of `postAdSchema`: every `z.enum` field must
belong to its vocabulary. -/
def postCatsOk (r : PostAdRecord) : Bool :=
  postFlatmateGenderVocab.contains r.flatmate_gender &&
  postRoomTypeVocab.contains r.room_type &&
  postBathroomVocab.contains r.attached_bathroom &&
  foodVocab.contains r.lifestyle_food &&
  alcoholVocab.contains r.lifestyle_alcohol &&
  smokeVocab.contains r.lifestyle_smoke

/-- The non-categorical checks of `postAdSchema`. -/
def postRestOk (now : ℤ) (r : PostAdRecord) : Bool :=
  (r.location != "") &&
  (r.address != "") &&
  decide (0 < r.rent) &&
  isPosInt r.lease_duration_months &&
  isPosInt r.num_bedrooms &&
  isPosInt r.num_bathrooms &&
  emailLike r.contact &&
  decide (10 ≤ r.description.length) &&
  availableFromOk now r.available_from &&
  (match r.photos with
   | none => true
   | some ps => ps.all urlLike)

/-- Acceptance predicate of `postAdSchema` (validation.ts:35-62), evaluated
at instant `now`. -/
def postAdSchemaAccepts (now : ℤ) (r : PostAdRecord) : Bool :=
  postCatsOk r && postRestOk now r

/-- `postAdSchema.safeParse`: on success the record is returned unchanged
(zod enums never coerce values), on failure the record is rejected as a
whole. -/
def postAdSchemaParse (now : ℤ) (r : PostAdRecord) : Option PostAdRecord :=
  if postAdSchemaAccepts now r then some r else none

/-- A filter set as validated by `filterSchema` (validation.ts:64-87); all
fields are optional there.  `move_in_date`: `none` is an absent field,
`some none` a present but unparseable date string, `some (some d)` a date
parsing to day `d`. -/
structure FilterSet where
  max_rent : Option ℚ
  limit : Option ℚ
  gender_pref : Option String
  preferred_locations : Option (List String)
  room_type_preference : Option String
  attached_bathroom : Option String
  lifestyle_food : Option String
  lifestyle_alcohol : Option String
  lifestyle_smoke : Option String
  utilities_preference : Option (List String)
  move_in_date : Option (Option ℤ)
  bio : Option String
  interests : Option (List String)
  deriving DecidableEq

/-- The categorical-field checks of `filterSchema`: every present `z.enum`
field must belong to its vocabulary. -/
def filterCatsOk (f : FilterSet) : Bool :=
  (match f.gender_pref with
   | none => true
   | some v => filterGenderVocab.contains v) &&
  (match f.room_type_preference with
   | none => true
   | some v => filterRoomTypeVocab.contains v) &&
  (match f.attached_bathroom with
   | none => true
   | some v => filterBathroomVocab.contains v) &&
  (match f.lifestyle_food with
   | none => true
   | some v => foodVocab.contains v) &&
  (match f.lifestyle_alcohol with
   | none => true
   | some v => alcoholVocab.contains v) &&
  (match f.lifestyle_smoke with
   | none => true
   | some v => smokeVocab.contains v)

/-- Acceptance predicate of `filterSchema` (validation.ts:64-87), evaluated
at day `now` (`move_in_date` must lie between today — the code compares
against today's midnight, which at day resolution is `now` itself — and one
year from now). -/
def filterSchemaAccepts (now : ℤ) (f : FilterSet) : Bool :=
  (match f.max_rent with
   | none => true
   | some q => decide (0 < q)) &&
  (match f.limit with
   | none => true
   | some n => isPosInt n && decide (n ≤ 100)) &&
  filterCatsOk f &&
  (match f.move_in_date with
   | none => true
   | some none => false
   | some (some d) => decide (now ≤ d) && decide (d ≤ now + 365)) &&
  (match f.bio with
   | none => true
   | some b => (b == "") || decide (10 ≤ b.length)) &&
  (match f.interests with
   | none => true
   | some is => is.all (fun s => decide (s.length ≤ 50)) && decide (is.length ≤ 20))

/-! ## Embedding of `src/frontend/components/modals/FiltersModal.tsx`

The modal's state is a plain record; `handleApply` (FiltersModal.tsx:113-133)
builds the "clean" filter object that is passed to `onApply` and from there
straight to `apiClient.getRecommendations`.  Note that `handleApply` never
invokes `filterSchema`: it only drops empty/default values.
-/

/-- The `filters` state of `FiltersModal` (FiltersModal.tsx:51-64).  Numeric
inputs are numbers (`handleChange` applies `parseFloat(value) || 0`), with
`0` standing for the falsy "unset" value; `lease_duration_months` starts as
the empty string, which is likewise modelled by `0`. -/
structure FilterFormState where
  max_rent : ℚ
  limit : ℚ
  location : List String
  flatmate_gender : String
  room_type : String
  attached_bathroom : String
  available_from : String
  lease_duration_months : ℚ
  lifestyle_food : String
  lifestyle_alcohol : String
  lifestyle_smoke : String
  utilities_included : List String
  deriving DecidableEq

/-- The clean filter object built by `handleApply`; field names follow the
keys assigned in FiltersModal.tsx:117-130 (note that they differ from the
field names of `filterSchema`). -/
structure CleanFilters where
  max_rent : Option ℚ
  limit : Option ℚ
  location : Option (List String)
  flatmate_gender : Option String
  room_type : Option String
  attached_bathroom : Option String
  available_from : Option String
  lease_duration_months : Option ℤ
  lifestyle_food : Option String
  lifestyle_alcohol : Option String
  lifestyle_smoke : Option String
  utilities_included : Option (List String)
  deriving DecidableEq

/-- `handleApply` (FiltersModal.tsx:113-133): builds the clean filter object
and submits it via `onApply`.  It is total — no validation is performed and
no error path exists. -/
def handleApply (s : FilterFormState) : CleanFilters :=
  { max_rent := if 0 < s.max_rent then some s.max_rent else none
    limit := if 0 < s.limit then some s.limit else none
    location := if s.location.isEmpty then none else some s.location
    flatmate_gender :=
      if s.flatmate_gender != "" && s.flatmate_gender != "Any" then
        some s.flatmate_gender else none
    room_type :=
      if s.room_type != "" && s.room_type != "Any" then some s.room_type else none
    attached_bathroom :=
      if s.attached_bathroom != "" && s.attached_bathroom != "Any" then
        some s.attached_bathroom else none
    available_from := if s.available_from != "" then some s.available_from else none
    lease_duration_months :=
      if s.lease_duration_months != 0 then some ⌊s.lease_duration_months⌋ else none
    lifestyle_food := if s.lifestyle_food != "" then some s.lifestyle_food else none
    lifestyle_alcohol :=
      if s.lifestyle_alcohol != "" then some s.lifestyle_alcohol else none
    lifestyle_smoke := if s.lifestyle_smoke != "" then some s.lifestyle_smoke else none
    utilities_included :=
      if s.utilities_included.isEmpty then none else some s.utilities_included }

/-- Vocabulary conformance of a submitted clean filter object: every present
categorical value belongs to the vocabulary `filterSchema` enumerates for
the corresponding filter. -/
def cleanCatsOk (c : CleanFilters) : Bool :=
  (match c.flatmate_gender with
   | none => true
   | some v => filterGenderVocab.contains v) &&
  (match c.room_type with
   | none => true
   | some v => filterRoomTypeVocab.contains v) &&
  (match c.attached_bathroom with
   | none => true
   | some v => filterBathroomVocab.contains v) &&
  (match c.lifestyle_food with
   | none => true
   | some v => foodVocab.contains v) &&
  (match c.lifestyle_alcohol with
   | none => true
   | some v => alcoholVocab.contains v) &&
  (match c.lifestyle_smoke with
   | none => true
   | some v => smokeVocab.contains v)

/-- A modal state all of whose categorical selections come from the option
lists the UI offers (the `<select>` elements of FiltersModal.tsx render
exactly these options, with `""` as the "Any" choice for the lifestyle
selects). -/
def stateFromUiChoices (s : FilterFormState) : Bool :=
  FLATMATE_GENDER_OPTIONS.contains s.flatmate_gender &&
  (s.room_type == "Any" || ROOM_TYPE_OPTIONS.contains s.room_type) &&
  BATHROOM_OPTIONS.contains s.attached_bathroom &&
  (s.lifestyle_food == "" || LIFESTYLE_FOOD_OPTIONS.contains s.lifestyle_food) &&
  (s.lifestyle_alcohol == "" || LIFESTYLE_ALCOHOL_OPTIONS.contains s.lifestyle_alcohol) &&
  (s.lifestyle_smoke == "" || LIFESTYLE_SMOKE_OPTIONS.contains s.lifestyle_smoke)

/-! ## Embedding of `src/frontend/lib/apiClient.ts`

`sessionStorage` becomes an explicit store record; `apiFetch` becomes a
function of the store and the HTTP response that returns the new store and
either an error message or the response body.
-/

/-- The session storage slots used by `apiClient.ts`: the access token under
`homiehub_access_token` and the user e-mail under `user_email`. -/
structure SessionStore where
  token : Option String
  userEmail : Option String
  deriving DecidableEq

/-- `getAccessToken` (apiClient.ts:9-12). -/
def getAccessToken (st : SessionStore) : Option String := st.token

/-- `isAuthenticated` (apiClient.ts:24-26): true iff a token is stored. -/
def isAuthenticated (st : SessionStore) : Bool := (getAccessToken st).isSome

/-- An HTTP response as observed by `apiFetch`: status code and body text. -/
structure HttpResponse where
  status : ℕ
  body : String
  deriving DecidableEq

/-- `apiFetch` (apiClient.ts:32-72).  Given whether the call requires auth,
the current session store and the response the server returns, it produces
the updated store and either `Except.error` (a thrown `Error`'s message) or
`Except.ok` (the parsed body).  The 401 branch (apiClient.ts:56-64) clears
the stored token and the stored user e-mail and throws `"UNAUTHORIZED"`. -/
def apiFetch (requiresAuth : Bool) (st : SessionStore) (resp : HttpResponse) :
    SessionStore × Except String String :=
  if requiresAuth && (getAccessToken st).isNone then
    (st, Except.error "Authentication required")
  else if resp.status == 401 then
    ({ token := none, userEmail := none }, Except.error "UNAUTHORIZED")
  else if !(200 ≤ resp.status && resp.status < 300) then
    (st, Except.error (if resp.body != "" then resp.body
                       else "HTTP " ++ toString resp.status))
  else
    (st, Except.ok resp.body)

/-! ## Embedding of `src/frontend/app/app/page.tsx`

The recommendation page's relevant state is the match list, the error
string, the loading flag and whether a redirect to `/login` was issued.
`loadRecommendations` (page.tsx:112-142) is embedded as the state update
applied to the outcome of the API call, and the render expression
(page.tsx:482-543) as a four-way branch decision.
-/

/-- The fields of `room_data` that the client-side sort reads
(page.tsx:147-148): `created_at` with fallback `available_from`, both
optional (JavaScript `||` falls through on missing or empty values). -/
structure RoomInfo where
  created_at : Option ℤ
  available_from : Option ℤ
  deriving DecidableEq

/-- A `RoomMatch` as returned by the recommendation API (types.ts:64-67). -/
structure RoomMatch where
  room_id : String
  room_data : RoomInfo
  deriving DecidableEq

/-- The sort key of `applySort` (page.tsx:147-148):
`new Date(a.room_data.created_at || a.room_data.available_from || 0).getTime()`. -/
def sortKey (m : RoomMatch) : ℤ :=
  m.room_data.created_at.getD (m.room_data.available_from.getD 0)

/-- The two sort modes of the page (page.tsx:32). -/
inductive SortMode where
  | relevance
  | time
  deriving DecidableEq

/-- `applySort` (page.tsx:144-153): `"time"` sorts by descending timestamp
with JavaScript's stable `Array.prototype.sort` (comparator
`bDate - aDate`); `"relevance"` returns the list unchanged. -/
def applySort (items : List RoomMatch) (mode : SortMode) : List RoomMatch :=
  match mode with
  | SortMode.time => stableSortBy (fun a b => decide (sortKey b ≤ sortKey a)) items
  | SortMode.relevance => items

/-- The page state relevant to the outcome branches of `AppPage`. -/
structure PageState where
  rooms : List RoomMatch
  error : String
  isLoading : Bool
  redirectToLogin : Bool
  deriving DecidableEq

/-- `loadRecommendations` (page.tsx:112-142): state after the API call
resolves.  Success stores `response.matches` and clears the error;
`"UNAUTHORIZED"` redirects to `/login`; any other failure stores the error
message with the `"Failed to load recommendations"` fallback for an empty
message.  The `finally` block always clears `isLoading`. -/
def loadOutcome (st : PageState) (res : Except String (List RoomMatch)) : PageState :=
  match res with
  | Except.ok ms =>
      { st with rooms := ms, error := "", isLoading := false }
  | Except.error e =>
      if e == "UNAUTHORIZED" then
        { st with error := "", isLoading := false, redirectToLogin := true }
      else
        { st with
            error := if e != "" then e else "Failed to load recommendations",
            isLoading := false }

/-- The four mutually exclusive outcome branches rendered by `AppPage`
(page.tsx:482-543). -/
inductive Branch where
  | loading
  | errorCard
  | emptyCard
  | grid
  deriving DecidableEq

/-- The branch decision of the render expression (page.tsx:482-543):
`isLoading ? … : error ? … : rooms.length === 0 ? … : grid`. -/
def renderBranch (st : PageState) : Branch :=
  if st.isLoading then Branch.loading
  else if st.error != "" then Branch.errorCard
  else if st.rooms.isEmpty then Branch.emptyCard
  else Branch.grid

/-! ## Modelled backend: Similarity & Ranking Engine

The engine itself is a backend service (`homiehub-recommendation-api`) whose
code is not in the repository; only its design documents and its frontend
callers are.  The definitions below are modelled from the specification's
§4.2 "Similarity & Ranking Engine".
-/

/-- Modelled from the spec: a vectorized candidate room as seen by the
Similarity & Ranking Engine — identifier, the fields the hard filters read
(rent, location, gender, room type, lifestyle values) and the update
timestamp used for tie-breaking. -/
structure Candidate where
  id : String
  rent : ℚ
  location : String
  gender : String
  roomType : String
  lifestyle : List String
  updatedAt : ℤ
  deriving DecidableEq

/-- Modelled from the spec: the hard-filter set of a ranking request — max
rent, required location membership, gender preference, room type and
lifestyle exclusions (spec §4.2). -/
structure EngineFilters where
  maxRent : Option ℚ
  locations : Option (List String)
  genderPref : Option String
  roomType : Option String
  excludedLifestyle : List String
  deriving DecidableEq

/-- Modelled from the spec: a candidate passes the hard filters iff its rent
is at most the max rent, its location is in the required location set, it
matches the gender preference and the room type, and none of its lifestyle
values is excluded. -/
def passesFilters (f : EngineFilters) (c : Candidate) : Bool :=
  (match f.maxRent with
   | none => true
   | some r => decide (c.rent ≤ r)) &&
  (match f.locations with
   | none => true
   | some ls => ls.contains c.location) &&
  (match f.genderPref with
   | none => true
   | some g => c.gender == g) &&
  (match f.roomType with
   | none => true
   | some t => c.roomType == t) &&
  c.lifestyle.all (fun v => !(f.excludedLifestyle.contains v))

/-- Modelled from the spec: the engine's ranking order — higher similarity
score first, ties broken by higher recency of the candidate's update
timestamp, then by lexicographic identifier order (spec §4.2).  `score` is
the similarity of the query vector and the candidate vector under the
production model; cosine similarity is abstracted as a rational-valued
function since square roots are not needed for any ordering claim. -/
def rankLe (score : Candidate → ℚ) (a b : Candidate) : Bool :=
  decide (score b < score a) ||
  (decide (score a = score b) &&
   (decide (b.updatedAt < a.updatedAt) ||
    (decide (a.updatedAt = b.updatedAt) && lexLe a.id.data b.id.data)))

/-- Modelled from the spec: `rank(queryVector, candidateVectors, filters, k)`
— hard filters eliminate candidates before any similarity computation, the
survivors are ordered by `rankLe`, and the top `k` are returned; if the
filtered set is empty the result is the empty sequence (spec §4.2). -/
def rank (score : Candidate → ℚ) (f : EngineFilters) (cands : List Candidate)
    (k : ℕ) : List Candidate :=
  (stableSortBy (rankLe score) (cands.filter (passesFilters f))).take k

/-! ## Modelled backend: Retraining Orchestrator

Modelled from the specification's §4.5 state machine
`MONITORING → TRIGGERED → RETRAINING → VALIDATING → {PROMOTED | ROLLED_BACK}
→ MONITORING`.
-/

/-- Modelled from the spec: the lifecycle phases of the Retraining
Orchestrator. -/
inductive Phase where
  | MONITORING
  | TRIGGERED
  | RETRAINING
  | VALIDATING
  | PROMOTED
  | ROLLED_BACK
  deriving DecidableEq

/-- Modelled from the spec: a ModelVersion with its BiasReport's statistical
parity difference and its held-out ranking-quality metric. -/
structure ModelVersion where
  id : ℕ
  parityDiff : ℚ
  quality : ℚ
  deriving DecidableEq

/-- Modelled from the spec: the externally configured thresholds for bias
and quality. -/
structure Thresholds where
  parityMax : ℚ
  qualityMin : ℚ
  deriving DecidableEq

/-- Modelled from the spec: a ModelVersion passes validation iff its
BiasReport verdict passes (parity difference within threshold) and its
quality metric passes (at least the quality threshold). -/
def passesThresholds (cfg : Thresholds) (mv : ModelVersion) : Bool :=
  decide (mv.parityDiff ≤ cfg.parityMax) && decide (cfg.qualityMin ≤ mv.quality)

/-- Modelled from the spec: the orchestrator's state — current phase, the
`production` ModelVersion, the candidate under validation, the retired
versions retained for rollback, and the drift baseline tag (replaced
atomically on promotion). -/
structure OrchState where
  phase : Phase
  production : ModelVersion
  candidate : Option ModelVersion
  retired : List ModelVersion
  baseline : ℕ
  deriving DecidableEq

/-- Modelled from the spec: the events the orchestrator reacts to — a
drift/bias/pipeline trigger, lock acquisition, retraining completion with a
candidate, validation completion, an unexpected error, and the return tick
from a terminal phase. -/
inductive OrchEvent where
  | trigger
  | lockAcquired
  | retrained (mv : ModelVersion)
  | validated
  | failure
  | tick
  deriving DecidableEq

/-- Modelled from the spec: the transition function of the Retraining
Orchestrator (spec §4.5).  `VALIDATING → PROMOTED` fires only when the
candidate passes both thresholds, and promotion installs the candidate as
`production`, retires the old production and replaces the baseline; every
path to `ROLLED_BACK` leaves `production` untouched; both terminal phases
return to `MONITORING`; events that do not apply leave the state
unchanged. -/
def orchStep (cfg : Thresholds) (s : OrchState) (e : OrchEvent) : OrchState :=
  match s.phase, e with
  | Phase.MONITORING, OrchEvent.trigger => { s with phase := Phase.TRIGGERED }
  | Phase.TRIGGERED, OrchEvent.lockAcquired => { s with phase := Phase.RETRAINING }
  | Phase.RETRAINING, OrchEvent.retrained mv =>
      { s with phase := Phase.VALIDATING, candidate := some mv }
  | Phase.RETRAINING, OrchEvent.failure => { s with phase := Phase.ROLLED_BACK }
  | Phase.VALIDATING, OrchEvent.validated =>
      match s.candidate with
      | some mv =>
          if passesThresholds cfg mv then
            { phase := Phase.PROMOTED
              production := mv
              candidate := none
              retired := s.production :: s.retired
              baseline := s.baseline + 1 }
          else
            { s with phase := Phase.ROLLED_BACK }
      | none => { s with phase := Phase.ROLLED_BACK }
  | Phase.VALIDATING, OrchEvent.failure => { s with phase := Phase.ROLLED_BACK }
  | Phase.PROMOTED, _ => { s with phase := Phase.MONITORING }
  | Phase.ROLLED_BACK, _ => { s with phase := Phase.MONITORING }
  | _, _ => s

/-! ## Modelled backend: Drift Detector

Modelled from the specification's §4.4: a per-feature distributional
distance between the current window and the baseline, aggregated by maximum.
The per-feature distance is a KS-statistic analogue: the largest absolute
difference between the two empirical relative frequencies of any value.
-/

/-- Modelled from the spec: the values of feature `i` across a window of
vectors. -/
def featVals (i : ℕ) (w : List (List ℚ)) : List ℚ :=
  w.map (fun v => v.getD i 0)

/-- Modelled from the spec: the empirical relative frequency of value `x`
in the sample `l` (zero for an empty sample). -/
def freq (x : ℚ) (l : List ℚ) : ℚ := (l.count x : ℚ) / (l.length : ℚ)

/-- Fold a list to the maximum of its elements and `0`. -/
def maxFold (l : List ℚ) : ℚ := l.foldr max 0

/-- Modelled from the spec: the per-feature drift score of feature `i` — the
largest absolute difference of empirical frequencies over the values
occurring in either window. -/
def featScore (i : ℕ) (cur base : List (List ℚ)) : ℚ :=
  maxFold (((featVals i cur ++ featVals i base).dedup).map
    (fun x => |freq x (featVals i cur) - freq x (featVals i base)|))

/-- Modelled from the spec: a DriftReport — per-feature scores, the
aggregate score and the drift verdict. -/
structure DriftReport where
  perFeature : List ℚ
  aggregate : ℚ
  driftDetected : Bool
  deriving DecidableEq

/-- Modelled from the spec: `detect(currentWindowVectors, baselineVectors)`
for `dim` features — the aggregate drift score is the maximum (not the
average) of the per-feature scores, and drift is detected when the aggregate
exceeds the configured threshold. -/
def detect (dim : ℕ) (threshold : ℚ) (cur base : List (List ℚ)) : DriftReport :=
  let per := (List.range dim).map (fun i => featScore i cur base)
  { perFeature := per
    aggregate := maxFold per
    driftDetected := decide (threshold < maxFold per) }

/-! ## Helper lemmas about the modelled definitions -/

theorem rankLe_iff (score : Candidate → ℚ) (a b : Candidate) :
    rankLe score a b = true ↔
      score b < score a ∨
      (score a = score b ∧
        (b.updatedAt < a.updatedAt ∨
          (a.updatedAt = b.updatedAt ∧ lexLe a.id.data b.id.data = true))) := by
  simp [rankLe, Bool.or_eq_true, Bool.and_eq_true, decide_eq_true_iff]

theorem rankLe_total (score : Candidate → ℚ) (a b : Candidate) :
    rankLe score a b = true ∨ rankLe score b a = true := by
  rw [rankLe_iff, rankLe_iff]
  rcases lt_trichotomy (score a) (score b) with h | h | h
  · right; exact Or.inl h
  · rcases lt_trichotomy a.updatedAt b.updatedAt with hu | hu | hu
    · right; exact Or.inr ⟨h.symm, Or.inl hu⟩
    · rcases lexLe_total a.id.data b.id.data with hl | hl
      · left; exact Or.inr ⟨h, Or.inr ⟨hu, hl⟩⟩
      · right; exact Or.inr ⟨h.symm, Or.inr ⟨hu.symm, hl⟩⟩
    · left; exact Or.inr ⟨h, Or.inl hu⟩
  · left; exact Or.inl h

theorem rankLe_trans (score : Candidate → ℚ) (a b c : Candidate)
    (h₁ : rankLe score a b = true) (h₂ : rankLe score b c = true) :
    rankLe score a c = true := by
  rw [rankLe_iff] at h₁ h₂ ⊢
  rcases h₁ with h₁ | ⟨he₁, h₁⟩
  · rcases h₂ with h₂ | ⟨he₂, _⟩
    · exact Or.inl (lt_trans h₂ h₁)
    · exact Or.inl (he₂ ▸ h₁)
  · rcases h₂ with h₂ | ⟨he₂, h₂⟩
    · exact Or.inl (lt_of_lt_of_eq h₂ he₁.symm)
    · refine Or.inr ⟨he₁.trans he₂, ?_⟩
      rcases h₁ with h₁ | ⟨hu₁, hl₁⟩
      · rcases h₂ with h₂ | ⟨hu₂, _⟩
        · exact Or.inl (lt_trans h₂ h₁)
        · exact Or.inl (hu₂ ▸ h₁)
      · rcases h₂ with h₂ | ⟨hu₂, hl₂⟩
        · exact Or.inl (lt_of_lt_of_eq h₂ hu₁.symm)
        · exact Or.inr ⟨hu₁.trans hu₂, lexLe_trans _ _ _ hl₁ hl₂⟩

theorem maxFold_nonneg (l : List ℚ) : 0 ≤ maxFold l := by
  induction l with
  | nil => exact le_refl 0
  | cons x xs ih => exact le_max_of_le_right ih

theorem le_maxFold (l : List ℚ) (x : ℚ) (hx : x ∈ l) : x ≤ maxFold l := by
  induction l with
  | nil => cases hx
  | cons a as ih =>
    rcases List.mem_cons.mp hx with h | h
    · exact h ▸ le_max_left a (maxFold as)
    · exact le_trans (ih h) (le_max_right a (maxFold as))

theorem maxFold_mem (l : List ℚ) (hne : l ≠ []) (hnn : ∀ x ∈ l, 0 ≤ x) :
    maxFold l ∈ l := by
  induction l with
  | nil => exact absurd rfl hne
  | cons a as ih =>
    cases as with
    | nil =>
      have : maxFold [a] = a := max_eq_left (hnn a (List.mem_cons_self a []))
      simp [this]
    | cons b bs =>
      rcases le_total a (maxFold (b :: bs)) with h | h
      · have : maxFold (a :: b :: bs) = maxFold (b :: bs) := max_eq_right h
        rw [this]
        exact List.mem_cons_of_mem a
          (ih (by simp) (fun x hx => hnn x (List.mem_cons_of_mem a hx)))
      · have : maxFold (a :: b :: bs) = a := max_eq_left h
        rw [this]
        exact List.mem_cons_self a (b :: bs)

theorem maxFold_eq_zero (l : List ℚ) (h : ∀ x ∈ l, x = 0) : maxFold l = 0 := by
  induction l with
  | nil => rfl
  | cons a as ih =>
    have ha : a = 0 := h a (List.mem_cons_self a as)
    have has : maxFold as = 0 := ih (fun x hx => h x (List.mem_cons_of_mem a hx))
    show max a (maxFold as) = 0
    rw [ha, has, max_self]

theorem featScore_self (i : ℕ) (B : List (List ℚ)) : featScore i B B = 0 := by
  apply maxFold_eq_zero
  intro x hx
  rcases List.mem_map.mp hx with ⟨y, _, hy⟩
  rw [← hy, sub_self, abs_zero]

/-! ## Concrete scenario data

The end-to-end scenario of the specification: a candidate pool with three
rooms in Cambridge at or under $1500 and two rooms over, queried with
`max_rent = 1500`, `location = ["Cambridge"]`, `k = 5`.
-/

def candA : Candidate :=
  { id := "roomA", rent := 1200, location := "Cambridge", gender := "Any",
    roomType := "Private", lifestyle := ["Vegetarian"], updatedAt := 100 }

def candB : Candidate :=
  { id := "roomB", rent := 1400, location := "Cambridge", gender := "Any",
    roomType := "Private", lifestyle := ["Vegan"], updatedAt := 200 }

def candC : Candidate :=
  { id := "roomC", rent := 1000, location := "Cambridge", gender := "Any",
    roomType := "Shared", lifestyle := [], updatedAt := 150 }

def candD : Candidate :=
  { id := "roomD", rent := 1600, location := "Cambridge", gender := "Any",
    roomType := "Private", lifestyle := [], updatedAt := 300 }

def candE : Candidate :=
  { id := "roomE", rent := 2000, location := "Boston", gender := "Any",
    roomType := "Studio", lifestyle := [], updatedAt := 50 }

def demoPool : List Candidate := [candA, candB, candC, candD, candE]

def demoFilters : EngineFilters :=
  { maxRent := some 1500, locations := some ["Cambridge"], genderPref := none,
    roomType := none, excludedLifestyle := [] }

/-- A sample similarity scoring (higher for cheaper rooms) used to
instantiate the abstract score function in witnesses. -/
def demoScore : Candidate → ℚ := fun c => -c.rent

/-- A filter set with `limit = 20` that `filterSchema` accepts. -/
def demoFilterSet : FilterSet :=
  { max_rent := some 1500, limit := some 20, gender_pref := none,
    preferred_locations := some ["Cambridge"], room_type_preference := none,
    attached_bathroom := none, lifestyle_food := none, lifestyle_alcohol := none,
    lifestyle_smoke := none, utilities_preference := none, move_in_date := none,
    bio := none, interests := none }

/-! ## Claims about the ranking path -/

/-- C1: every Match returned by `rank` satisfies every hard filter of the
request (rent at most max rent, location in the required set, matching
gender preference and room type, no excluded lifestyle value); a candidate
eliminated by the hard filters never appears in the output regardless of its
similarity score, because filtering happens before scoring and ordering. -/
theorem C1_rank_output_satisfies_hard_filters (score : Candidate → ℚ)
    (f : EngineFilters) (cands : List Candidate) (k : ℕ) (c : Candidate)
    (hc : c ∈ rank score f cands k) : passesFilters f c = true := by
  unfold rank at hc
  have h1 : c ∈ stableSortBy (rankLe score) (cands.filter (passesFilters f)) :=
    List.mem_of_mem_take hc
  have h2 : c ∈ cands.filter (passesFilters f) := (stableSortBy_mem _ _ _).mp h1
  exact List.of_mem_filter h2

/-- C1 witness: in the end-to-end scenario the cheapest Cambridge room is
returned and, by the theorem, satisfies the hard filters. -/
theorem C1_rank_output_satisfies_hard_filters_witness :
    candC ∈ rank demoScore demoFilters demoPool 5 ∧
    passesFilters demoFilters candC = true :=
  ⟨by decide,
   C1_rank_output_satisfies_hard_filters demoScore demoFilters demoPool 5 candC
     (by decide)⟩

/-- C4: the number of returned matches is `min k (filtered candidate
count)`, and `filterSchema` accepts a result limit only when it is a
positive integer not exceeding 100. -/
theorem C4_result_count_and_limit_validation (score : Candidate → ℚ)
    (f : EngineFilters) (cands : List Candidate) (k : ℕ) (now : ℤ)
    (fs : FilterSet) :
    (rank score f cands k).length = min k (cands.filter (passesFilters f)).length ∧
    (filterSchemaAccepts now fs = true →
      ∀ n, fs.limit = some n → 0 < n ∧ n ≤ 100 ∧ n.den = 1) := by
  constructor
  · unfold rank
    rw [List.length_take, stableSortBy_length]
  · intro hacc n hn
    simp only [filterSchemaAccepts, hn, isPosInt, Bool.and_eq_true,
      decide_eq_true_iff] at hacc
    obtain ⟨⟨⟨⟨⟨-, ⟨hpos, hden⟩, hle⟩, -⟩, -⟩, -⟩, -⟩ := hacc
    exact ⟨hpos, hle, hden⟩

/-- C4 witness: the end-to-end scenario returns `min 5 3 = 3` matches, and
the accepted limit `20` is a positive integer at most 100. -/
theorem C4_result_count_and_limit_validation_witness :
    (rank demoScore demoFilters demoPool 5).length =
      min 5 (demoPool.filter (passesFilters demoFilters)).length ∧
    (0 < (20 : ℚ) ∧ (20 : ℚ) ≤ 100 ∧ (20 : ℚ).den = 1) :=
  ⟨(C4_result_count_and_limit_validation demoScore demoFilters demoPool 5 0
      demoFilterSet).1,
   (C4_result_count_and_limit_validation demoScore demoFilters demoPool 5 0
      demoFilterSet).2 (by decide) 20 rfl⟩

/-- Serialization of an engine candidate into the `RoomMatch` shape the
page consumes (`room_id` plus `room_data` timestamps). -/
def candToMatch (c : Candidate) : RoomMatch :=
  { room_id := c.id, room_data := { created_at := some c.updatedAt, available_from := none } }

/-- C2: when the filtered candidate set is empty the engine returns the
empty sequence (no fallback to unfiltered candidates), and the caller can
tell this apart from an error: a successful empty response drives the render
to the empty-list branch, while a failed call drives it to the error branch,
and the two branches are distinct. -/
theorem C2_empty_result_distinguishable_from_error (score : Candidate → ℚ)
    (f : EngineFilters) (cands : List Candidate) (k : ℕ)
    (h : cands.filter (passesFilters f) = [])
    (st : PageState) (e : String) (he : e ≠ "UNAUTHORIZED") :
    rank score f cands k = [] ∧
    renderBranch (loadOutcome st
      (Except.ok ((rank score f cands k).map candToMatch))) = Branch.emptyCard ∧
    renderBranch (loadOutcome st (Except.error e)) = Branch.errorCard ∧
    Branch.emptyCard ≠ Branch.errorCard := by
  have hrank : rank score f cands k = [] := by
    unfold rank
    rw [h]
    show List.take k [] = []
    exact List.take_nil
  refine ⟨hrank, ?_, ?_, by decide⟩
  · rw [hrank]
    simp [loadOutcome, renderBranch]
  · by_cases hee : e = ""
    · subst hee
      simp [loadOutcome, renderBranch]
    · simp [loadOutcome, renderBranch, he, hee]

/-- C2 witness: filters that exclude every candidate yield the empty match
list and the empty-list branch, while a failure message yields the error
branch. -/
theorem C2_empty_result_distinguishable_from_error_witness :
    rank demoScore { demoFilters with maxRent := some 500 } demoPool 5 = [] ∧
    renderBranch (loadOutcome ⟨[], "", true, false⟩
      (Except.ok ((rank demoScore { demoFilters with maxRent := some 500 }
        demoPool 5).map candToMatch))) = Branch.emptyCard ∧
    renderBranch (loadOutcome ⟨[], "", true, false⟩
      (Except.error "Network error")) = Branch.errorCard ∧
    Branch.emptyCard ≠ Branch.errorCard :=
  C2_empty_result_distinguishable_from_error demoScore
    { demoFilters with maxRent := some 500 } demoPool 5 (by decide)
    ⟨[], "", true, false⟩ "Network error" (by decide)

/-! ## Claim C5: determinism and tie-breaking -/

/-- The ordering the claim asserts for client-side sorted match lists:
newer first, timestamp ties broken by lexicographic identifier order. -/
def claimTieOrder (a b : RoomMatch) : Prop :=
  sortKey b < sortKey a ∨
    (sortKey a = sortKey b ∧ lexLe a.room_id.data b.room_id.data = true)

instance : DecidableRel claimTieOrder := by
  intro a b
  unfold claimTieOrder
  infer_instance

/-- C5 counterexample: the client-side `applySort` does not break timestamp
ties by identifier.  With two matches of equal timestamp whose identifiers
are in reversed lexicographic order, the time-mode sort keeps the input
order (`"b"` before `"a"`), so the output violates the claimed tie order. -/
theorem C5_counterexample :
    ¬ (applySort [⟨"b", ⟨some 5, none⟩⟩, ⟨"a", ⟨some 5, none⟩⟩]
        SortMode.time).Pairwise claimTieOrder := by decide

/-- C5 amended: for identical inputs the outputs are identical (both `rank`
and `applySort` are pure functions of their arguments), the engine's `rank`
orders its output by descending similarity score with ties broken by higher
recency and then lexicographic identifier order, and the client-side
`applySort` in time mode orders by non-increasing timestamp, is a
permutation of its input, and preserves the input order of matches with
equal timestamps (JavaScript's sort is stable) — rather than breaking
timestamp ties by identifier; in relevance mode it returns the list
unchanged. -/
theorem C5_deterministic_ordering_amended (score : Candidate → ℚ)
    (f : EngineFilters) (cands : List Candidate) (k : ℕ)
    (items : List RoomMatch) :
    (rank score f cands k).Pairwise (fun a b => rankLe score a b = true) ∧
    applySort items SortMode.relevance = items ∧
    (applySort items SortMode.time).Pairwise (fun a b => sortKey b ≤ sortKey a) ∧
    (applySort items SortMode.time).Perm items ∧
    (∀ t : ℤ, (applySort items SortMode.time).filter (fun m => sortKey m == t) =
      items.filter (fun m => sortKey m == t)) := by
  refine ⟨?_, rfl, ?_, stableSortBy_perm _ _, ?_⟩
  · unfold rank
    exact List.Pairwise.sublist (List.take_sublist k _)
      (stableSortBy_pairwise _ (rankLe_total score) (rankLe_trans score) _)
  · have h := stableSortBy_pairwise (fun a b => decide (sortKey b ≤ sortKey a))
      (fun a b => by
        rcases le_total (sortKey b) (sortKey a) with hle | hle
        · exact Or.inl (by simpa using hle)
        · exact Or.inr (by simpa using hle))
      (fun a b c h₁ h₂ => by
        simp only [decide_eq_true_iff] at h₁ h₂ ⊢
        exact le_trans h₂ h₁)
      items
    exact h.imp (fun hab => of_decide_eq_true hab)
  · intro t
    apply stableSortBy_filter
    intro a b ha hb
    simp only [beq_iff_eq] at ha hb
    simp [ha, hb]

/-! ## Claim C3: filter submission and vocabulary validation -/

/-- A `FiltersModal` state whose food selection is not in any enumerated
vocabulary (the UI's selects cannot produce it, but nothing in the
submission path checks). -/
def pizzaState : FilterFormState :=
  { max_rent := 2000, limit := 20, location := [], flatmate_gender := "Any",
    room_type := "Any", attached_bathroom := "Any", available_from := "",
    lease_duration_months := 0, lifestyle_food := "Pizza",
    lifestyle_alcohol := "", lifestyle_smoke := "", utilities_included := [] }

/-- C3: evaluation of the submission path at the failing input.
`FiltersModal.handleApply` submits the filter state without invoking
`filterSchema` (which the file imports but never uses, although the
repository's docs state that `filterSchema` validates the filter form): the
out-of-vocabulary value `"Pizza"` is passed through to the recommendation
request unrejected, so the filter set that reaches the engine has not been
validated against the enumerated vocabularies. -/
theorem C3_handleApply_submits_without_validation :
    (handleApply pizzaState).lifestyle_food = some "Pizza" ∧
    cleanCatsOk (handleApply pizzaState) = false ∧
    foodVocab.contains "Pizza" = false := by decide

/-! ## Claim C6: profile categorical vocabulary validation -/

/-- A room record that `postAdSchema` accepts whose food value `"Halal"` is
outside the UI option list `LIFESTYLE_FOOD_OPTIONS`. -/
def rHalal : PostAdRecord :=
  { location := "Cambridge", address := "1 Main St", flatmate_gender := "Any",
    room_type := "Private", rent := 1200, lease_duration_months := 12,
    attached_bathroom := "Yes", lifestyle_food := "Halal",
    lifestyle_alcohol := "Never", lifestyle_smoke := "No", num_bedrooms := 2,
    num_bathrooms := 1, utilities_included := [], contact := "a@b.edu",
    description := "A nice sunny room", amenities := [],
    available_from := some 0, photos := none }

/-- The same record with an in-vocabulary food value but the bathroom value
`"Any"`, which is in the UI option list `BATHROOM_OPTIONS` yet rejected by
`postAdSchema`. -/
def rBathAny : PostAdRecord :=
  { rHalal with lifestyle_food := "Vegetarian", attached_bathroom := "Any" }

/-- C6 counterexample: validation acceptance does not coincide
with membership in the option lists of `types.ts` (the vocabularies the UI,
and by the claim the Vectorizer, knows): `postAdSchema` accepts
`lifestyle_food = "Halal"` although `"Halal"` is not in
`LIFESTYLE_FOOD_OPTIONS`, and rejects `attached_bathroom = "Any"` although
`"Any"` is in `BATHROOM_OPTIONS`. -/
theorem C6_counterexample :
    postAdSchemaAccepts 0 rHalal = true ∧
    LIFESTYLE_FOOD_OPTIONS.contains "Halal" = false ∧
    postAdSchemaAccepts 0 rBathAny = false ∧
    BATHROOM_OPTIONS.contains "Any" = true := by decide

/-- C6 amended: acceptance is an if-and-only-if with respect to
`postAdSchema`'s own enumerated vocabularies (which differ from the
`types.ts` option lists: the schema's food and smoke vocabularies strictly
contain the UI lists, and its bathroom vocabulary excludes the UI option
`"Any"`): a record passing every non-categorical constraint is accepted iff
every categorical value is in the schema's vocabulary, a record with an
unknown categorical value is rejected as a whole, and a successful parse
returns the record unchanged — no field is dropped or altered. -/
theorem C6_categorical_vocabulary_amended (now : ℤ) (r : PostAdRecord) :
    (postAdSchemaAccepts now r = true → postCatsOk r = true) ∧
    (postCatsOk r = false → postAdSchemaParse now r = none) ∧
    (∀ r', postAdSchemaParse now r = some r' → r' = r ∧ postCatsOk r = true) ∧
    (postRestOk now r = true →
      (postAdSchemaAccepts now r = true ↔ postCatsOk r = true)) := by
  refine ⟨?_, ?_, ?_, ?_⟩
  · intro h
    simp only [postAdSchemaAccepts, Bool.and_eq_true] at h
    exact h.1
  · intro h
    unfold postAdSchemaParse postAdSchemaAccepts
    rw [h]
    simp
  · intro r' h
    unfold postAdSchemaParse at h
    by_cases hacc : postAdSchemaAccepts now r = true
    · rw [if_pos hacc] at h
      have hcats : postCatsOk r = true := by
        simp only [postAdSchemaAccepts, Bool.and_eq_true] at hacc
        exact hacc.1
      exact ⟨(Option.some.inj h).symm, hcats⟩
    · rw [if_neg hacc] at h
      exact absurd h (by simp)
  · intro hrest
    constructor
    · intro h
      simp only [postAdSchemaAccepts, Bool.and_eq_true] at h
      exact h.1
    · intro hcats
      unfold postAdSchemaAccepts
      rw [hcats, hrest]
      rfl

/-- C6 witness: the theorem applied at concrete records — the accepted
record has all categorical values in the schema vocabularies, and the record
with the unknown bathroom value is rejected as a whole. -/
theorem C6_categorical_vocabulary_amended_witness :
    postCatsOk rHalal = true ∧ postAdSchemaParse 0 rBathAny = none :=
  ⟨(C6_categorical_vocabulary_amended 0 rHalal).1 (by decide),
   (C6_categorical_vocabulary_amended 0 rBathAny).2.1 (by decide)⟩

/-! ## Claim C7: orchestrator promotion/rollback invariant -/

/-- C7: after any `VALIDATING → PROMOTED` transition the newly promoted
production ModelVersion passes both the bias threshold and the quality
threshold, and after any `VALIDATING → ROLLED_BACK` transition the
previously promoted production ModelVersion is unchanged and remains
active. -/
theorem C7_validating_transition_invariant (cfg : Thresholds) (s : OrchState)
    (e : OrchEvent) (hv : s.phase = Phase.VALIDATING) :
    ((orchStep cfg s e).phase = Phase.PROMOTED →
      passesThresholds cfg (orchStep cfg s e).production = true) ∧
    ((orchStep cfg s e).phase = Phase.ROLLED_BACK →
      (orchStep cfg s e).production = s.production) := by
  rcases s with ⟨ph, prod, cand, ret, base⟩
  simp only at hv
  subst hv
  cases e with
  | trigger => exact ⟨fun h => by simp [orchStep] at h, fun _ => by simp [orchStep]⟩
  | lockAcquired =>
      exact ⟨fun h => by simp [orchStep] at h, fun _ => by simp [orchStep]⟩
  | retrained mv =>
      exact ⟨fun h => by simp [orchStep] at h, fun _ => by simp [orchStep]⟩
  | tick => exact ⟨fun h => by simp [orchStep] at h, fun _ => by simp [orchStep]⟩
  | failure => exact ⟨fun h => by simp [orchStep] at h, fun _ => by simp [orchStep]⟩
  | validated =>
      cases cand with
      | none => exact ⟨fun h => by simp [orchStep] at h, fun _ => by simp [orchStep]⟩
      | some mv =>
          by_cases hp : passesThresholds cfg mv = true
          · refine ⟨fun _ => ?_, fun h => ?_⟩
            · simp [orchStep, hp]
            · simp [orchStep, hp] at h
          · refine ⟨fun h => ?_, fun _ => ?_⟩
            · simp [orchStep, hp] at h
            · simp [orchStep, hp]

/-- Quality/bias thresholds used in the orchestrator witness. -/
def demoThresholds : Thresholds := { parityMax := 1, qualityMin := 7 }

/-- A candidate ModelVersion that passes both thresholds. -/
def mvGood : ModelVersion := { id := 2, parityDiff := 0, quality := 9 }

/-- A candidate ModelVersion that fails the bias threshold. -/
def mvBad : ModelVersion := { id := 3, parityDiff := 5, quality := 9 }

/-- The previously promoted production model. -/
def mvProd : ModelVersion := { id := 1, parityDiff := 0, quality := 8 }

/-- A validating orchestrator state with a passing candidate. -/
def sGood : OrchState :=
  { phase := Phase.VALIDATING, production := mvProd, candidate := some mvGood,
    retired := [], baseline := 0 }

/-- A validating orchestrator state with a failing candidate. -/
def sBad : OrchState :=
  { phase := Phase.VALIDATING, production := mvProd, candidate := some mvBad,
    retired := [], baseline := 0 }

/-- C7 witness: promoting a passing candidate yields a production model that
passes the thresholds, and a failing candidate rolls back leaving the
production model unchanged. -/
theorem C7_validating_transition_invariant_witness :
    passesThresholds demoThresholds
      (orchStep demoThresholds sGood OrchEvent.validated).production = true ∧
    (orchStep demoThresholds sBad OrchEvent.validated).production =
      sBad.production :=
  ⟨(C7_validating_transition_invariant demoThresholds sGood OrchEvent.validated
      rfl).1 (by decide),
   (C7_validating_transition_invariant demoThresholds sBad OrchEvent.validated
      rfl).2 (by decide)⟩

/-! ## Claim C8: drift detector -/

theorem featScore_nonneg (i : ℕ) (cur base : List (List ℚ)) :
    0 ≤ featScore i cur base :=
  maxFold_nonneg _

/-- C8: feeding the Drift Detector its own baseline as the current window
yields an aggregate drift score of zero and no drift verdict (for any
nonnegative threshold), and the aggregate score of any detection is the
maximum of the per-feature scores — an upper bound of all of them that is
itself one of them whenever any feature exists. -/
theorem C8_self_detection_zero_and_max_aggregate (dim : ℕ) (threshold : ℚ)
    (B cur base : List (List ℚ)) (hthr : 0 ≤ threshold) :
    (detect dim threshold B B).aggregate = 0 ∧
    (detect dim threshold B B).driftDetected = false ∧
    (∀ x ∈ (detect dim threshold cur base).perFeature,
      x ≤ (detect dim threshold cur base).aggregate) ∧
    ((detect dim threshold cur base).perFeature ≠ [] →
      (detect dim threshold cur base).aggregate ∈
        (detect dim threshold cur base).perFeature) := by
  have hself : ∀ x ∈ (List.range dim).map (fun i => featScore i B B), x = 0 := by
    intro x hx
    rcases List.mem_map.mp hx with ⟨i, -, hi⟩
    rw [← hi, featScore_self]
  have hagg : maxFold ((List.range dim).map (fun i => featScore i B B)) = 0 :=
    maxFold_eq_zero _ hself
  refine ⟨?_, ?_, ?_, ?_⟩
  · simpa [detect] using hagg
  · have : ¬ threshold < maxFold ((List.range dim).map (fun i => featScore i B B)) := by
      rw [hagg]
      exact not_lt.mpr hthr
    simp [detect, this]
  · intro x hx
    simp only [detect] at hx ⊢
    exact le_maxFold _ x hx
  · intro hne
    simp only [detect] at hne ⊢
    refine maxFold_mem _ hne ?_
    intro x hx
    rcases List.mem_map.mp hx with ⟨i, -, hi⟩
    rw [← hi]
    exact featScore_nonneg i cur base

/-- A sample baseline window for the drift witness. -/
def demoBaseline : List (List ℚ) := [[0], [1]]

/-- C8 witness: self-detection on a concrete two-vector baseline yields
aggregate zero and no drift at threshold 1. -/
theorem C8_self_detection_zero_and_max_aggregate_witness :
    (detect 1 1 demoBaseline demoBaseline).aggregate = 0 ∧
    (detect 1 1 demoBaseline demoBaseline).driftDetected = false :=
  ⟨(C8_self_detection_zero_and_max_aggregate 1 1 demoBaseline demoBaseline
      demoBaseline (by decide)).1,
   (C8_self_detection_zero_and_max_aggregate 1 1 demoBaseline demoBaseline
      demoBaseline (by decide)).2.1⟩

/-! ## Claim C9: 401 handling in the API client -/

/-- C9: whenever a request was actually issued (so not short-circuited by a
missing token) and the response status is 401, `apiFetch` removes the stored
access token and the stored user e-mail, throws `"UNAUTHORIZED"`,
`isAuthenticated` is false on the resulting store, and no normal value is
returned. -/
theorem C9_unauthorized_clears_session (requiresAuth : Bool)
    (st : SessionStore) (resp : HttpResponse) (h401 : resp.status = 401)
    (hsent : ¬(requiresAuth = true ∧ st.token = none)) :
    (apiFetch requiresAuth st resp).1.token = none ∧
    (apiFetch requiresAuth st resp).1.userEmail = none ∧
    (apiFetch requiresAuth st resp).2 = Except.error "UNAUTHORIZED" ∧
    isAuthenticated (apiFetch requiresAuth st resp).1 = false ∧
    ∀ b, (apiFetch requiresAuth st resp).2 ≠ Except.ok b := by
  have hguard : (requiresAuth && (getAccessToken st).isNone) = false := by
    cases requiresAuth with
    | false => rfl
    | true =>
      cases ht : st.token with
      | none => exact absurd ⟨rfl, ht⟩ hsent
      | some tok => simp [getAccessToken, ht]
  have hres : apiFetch requiresAuth st resp =
      ({ token := none, userEmail := none }, Except.error "UNAUTHORIZED") := by
    unfold apiFetch
    rw [hguard]
    simp [h401]
  rw [hres]
  exact ⟨rfl, rfl, rfl, rfl, fun b => by simp⟩

/-- A session store holding a token and a user e-mail. -/
def demoStore : SessionStore :=
  { token := some "tok123", userEmail := some "student@school.edu" }

/-- A 401 response. -/
def demoResp401 : HttpResponse := { status := 401, body := "" }

/-- C9 witness: an authenticated call hitting a 401 clears both session
slots, throws `"UNAUTHORIZED"` and leaves the client unauthenticated. -/
theorem C9_unauthorized_clears_session_witness :
    (apiFetch true demoStore demoResp401).1.token = none ∧
    (apiFetch true demoStore demoResp401).1.userEmail = none ∧
    (apiFetch true demoStore demoResp401).2 = Except.error "UNAUTHORIZED" ∧
    isAuthenticated (apiFetch true demoStore demoResp401).1 = false :=
  ⟨(C9_unauthorized_clears_session true demoStore demoResp401 rfl (by simp [demoStore])).1,
   (C9_unauthorized_clears_session true demoStore demoResp401 rfl (by simp [demoStore])).2.1,
   (C9_unauthorized_clears_session true demoStore demoResp401 rfl (by simp [demoStore])).2.2.1,
   (C9_unauthorized_clears_session true demoStore demoResp401 rfl (by simp [demoStore])).2.2.2.1⟩

/-! ## Claim C10: the available_from window -/

/-- C10: `postAdSchema` accepts a record only if its `available_from` parses
to a day between 30 days before the evaluation instant and one year after
it; a record whose date lies outside the window, or does not parse, is
rejected. -/
theorem C10_available_from_window (now : ℤ) (r : PostAdRecord) :
    (postAdSchemaAccepts now r = true →
      ∃ d, r.available_from = some d ∧ now - 30 ≤ d ∧ d ≤ now + 365) ∧
    (∀ d, r.available_from = some d → (d < now - 30 ∨ now + 365 < d) →
      postAdSchemaAccepts now r = false) ∧
    (r.available_from = none → postAdSchemaAccepts now r = false) := by
  have hkey : postAdSchemaAccepts now r = true →
      availableFromOk now r.available_from = true := by
    intro h
    simp only [postAdSchemaAccepts, postRestOk, Bool.and_eq_true] at h
    exact h.2.1.2
  refine ⟨?_, ?_, ?_⟩
  · intro h
    have hav := hkey h
    cases hd : r.available_from with
    | none =>
        rw [hd] at hav
        exact absurd hav (by simp [availableFromOk])
    | some d =>
        rw [hd] at hav
        simp only [availableFromOk, Bool.and_eq_true, decide_eq_true_iff] at hav
        exact ⟨d, rfl, hav.1, hav.2⟩
  · intro d hd hbad
    cases hacc : postAdSchemaAccepts now r with
    | false => rfl
    | true =>
        have hav := hkey hacc
        rw [hd] at hav
        simp only [availableFromOk, Bool.and_eq_true, decide_eq_true_iff] at hav
        rcases hbad with hb | hb
        · exact absurd hav.1 (not_le.mpr hb)
        · exact absurd hav.2 (not_le.mpr hb)
  · intro hd
    cases hacc : postAdSchemaAccepts now r with
    | false => rfl
    | true =>
        have hav := hkey hacc
        rw [hd] at hav
        exact absurd hav (by simp [availableFromOk])

/-- The accepted record with its availability pushed past the one-year
window. -/
def rLate : PostAdRecord := { rHalal with available_from := some 400 }

/-- C10 witness: the accepted record's date lies in the window, and moving
the date past one year makes validation reject the record. -/
theorem C10_available_from_window_witness :
    (∃ d, rHalal.available_from = some d ∧ (0 : ℤ) - 30 ≤ d ∧ d ≤ 0 + 365) ∧
    postAdSchemaAccepts 0 rLate = false :=
  ⟨(C10_available_from_window 0 rHalal).1 (by decide),
   (C10_available_from_window 0 rLate).2.1 400 rfl (Or.inr (by decide))⟩
